import Mathlib

/-
  Verification of the chaincode file-record management layer (fileData.go).

  The embedding models the chaincode's three operations (initFile, deleteFile,
  queryfile) as pure state-passing functions over an explicit ledger-stub
  state.  The external store collaborator (key-value state, composite-key
  construction, query engine) is modelled from its interface as described in
  the spec, with injectable failures so that error paths are reachable.
-/

namespace ChaincodeSpec

/-- A file-metadata record, as in the Go struct FileDetails
(fields FileName, FileHash, FileUrl, in declaration order). -/
structure FileDetails where
  FileName : String
  FileHash : String
  FileUrl : String
deriving DecidableEq, Repr

/-- Left brace character, kept as a named constant. -/
def lbrace : Char := Char.ofNat 123

/-- Right brace character, kept as a named constant. -/
def rbrace : Char := Char.ofNat 125

/-- Model of Go strings.ToLower restricted to ASCII letters (the normalization
applied to the hash and url arguments; all inputs considered here are ASCII). -/
def goToLower (s : String) : String := String.mk (s.toList.map Char.toLower)

/-- Association-list lookup in the ledger state (Go GetState on present keys). -/
def stateLookup (k : String) : List (String × String) → Option String
  | [] => none
  | (k2, v) :: rest => if k2 = k then some v else stateLookup k rest

/-- Insert or overwrite a key in the ledger state (Go PutState semantics). -/
def stateInsert (k v : String) (st : List (String × String)) : List (String × String) :=
  (k, v) :: st.filter (fun p => p.fst != k)

/-- Remove a key from the ledger state (Go DelState semantics; deleting an
absent key succeeds and changes nothing). -/
def stateRemove (k : String) (st : List (String × String)) : List (String × String) :=
  st.filter (fun p => p.fst != k)

/-- The ledger stub: the key-value state plus injectable failure behaviour for
each store primitive, and the external query engine.  Modelled from the spec:
the store collaborator of section 6 (get/put/delete, buildCompositeKey,
executeQuery returning a cursor of key/value pairs where each advance may
fail). -/
structure Stub where
  state : List (String × String)
  getFails : String → Bool
  putFails : String → Bool
  delFails : String → Bool
  queryEngine : String → Except String (List (Except String (String × String)))

/-- Go stub.GetState: either a read failure, or the stored bytes (none when
the key is absent). -/
def Stub.getState (st : Stub) (k : String) : Except String (Option String) :=
  if st.getFails k then Except.error "GET_STATE failed" else Except.ok (stateLookup k st.state)

/-- Go stub.PutState: either a write failure, or the updated state. -/
def Stub.putState (st : Stub) (k v : String) : Except String Stub :=
  if st.putFails k then Except.error "PUT_STATE failed"
  else Except.ok { st with state := stateInsert k v st.state }

/-- Go stub.DelState: either a delete failure, or the updated state. -/
def Stub.delState (st : Stub) (k : String) : Except String Stub :=
  if st.delFails k then Except.error "DEL_STATE failed"
  else Except.ok { st with state := stateRemove k st.state }

/-- Null character, the composite-key namespace and separator. -/
def nullChar : Char := Char.ofNat 0

/-- A composite-key component is valid when it does not contain the reserved
null separator. -/
def validAttr (s : String) : Bool := !(s.toList.any (fun c => c = nullChar))

/-- Modelled from the spec: the external store's buildCompositeKey (sections
4.1 and 6) - a deterministic encoding, injective for a fixed index name and
part count, prefixing a null namespace byte and terminating every component
with the null separator, and failing when a component contains the reserved
separator. -/
def createCompositeKey (objectType : String) (attributes : List String) : Except String String :=
  if validAttr objectType then
    attributes.foldlM
      (fun acc a =>
        if validAttr a then Except.ok (acc ++ a ++ String.singleton nullChar)
        else Except.error "invalid composite key attribute")
      (String.singleton nullChar ++ objectType ++ String.singleton nullChar)
  else Except.error "invalid composite key attribute"

/-- The outcome of one chaincode invocation: shim.Success with an optional
payload, shim.Error with a message, or a Go runtime panic (the invocation
aborts before producing a response). -/
inductive Outcome where
  | success : Option String → Outcome
  | error : String → Outcome
  | panic : String → Outcome
deriving DecidableEq, Repr

/-- True exactly on shim.Success outcomes. -/
def Outcome.isSuccess : Outcome → Bool
  | Outcome.success _ => true
  | _ => false

/-- True exactly on shim.Error outcomes. -/
def Outcome.isError : Outcome → Bool
  | Outcome.error _ => true
  | _ => false

/-- initFile from fileData.go, lines 47-104, translated faithfully.  After the
argument-count guard (exactly 3) and the three non-emptiness checks, line 67
evaluates args[3] - an index out of range for the three-element argument
slice - so the invocation panics before touching the store. -/
def initFile (stub : Stub) (args : List String) : Outcome × Stub :=
  match args with
  | [a0, a1, a2] =>
    if a0.isEmpty then (Outcome.error "1st argument must be a non-empty string", stub)
    else if a1.isEmpty then (Outcome.error "2nd argument must be a non-empty string", stub)
    else if a2.isEmpty then (Outcome.error "3rd argument must be a non-empty string", stub)
    else
      (Outcome.panic "runtime error: index out of range [3] with length 3", stub)
  | _ => (Outcome.error "Incorrect number of arguments. Expecting 4", stub)

/- ===== JSON values and a validating parser =====

   Used to model Go encoding/json: marshalFileDetails below models
   json.Marshal of a FileDetails, unmarshalFileDetails models json.Unmarshal
   into a FileDetails, and well-formedness of chaincode query output is
   membership in this grammar (RFC 8259 texts). -/

/-- A parsed JSON value.  Numbers are kept as their source literal. -/
inductive Json where
  | null : Json
  | bool : Bool → Json
  | num : String → Json
  | str : String → Json
  | arr : List Json → Json
  | obj : List (String × Json) → Json

/-- JSON insignificant whitespace. -/
def isWsChar (c : Char) : Bool := c = ' ' || c = '\t' || c = '\n' || c = '\r'

/-- Drop leading JSON whitespace. -/
def skipWs : List Char → List Char
  | [] => []
  | c :: rest => if isWsChar c then skipWs rest else c :: rest

/-- Hexadecimal digit test (for \u escapes). -/
def isHexDigit (c : Char) : Bool :=
  c.isDigit || ('a' ≤ c && c ≤ 'f') || ('A' ≤ c && c ≤ 'F')

/-- Value of a hexadecimal digit. -/
def hexVal (c : Char) : Nat :=
  if c.isDigit then c.toNat - '0'.toNat
  else if 'a' ≤ c && c ≤ 'f' then c.toNat - 'a'.toNat + 10
  else c.toNat - 'A'.toNat + 10

/-- Parse the body of a JSON string after the opening quote, decoding escape
sequences; returns the decoded string and the remaining input. -/
def parseStringBody (acc : List Char) : List Char → Option (String × List Char)
  | [] => none
  | c :: rest =>
    if c = '"' then some (String.mk acc.reverse, rest)
    else if c = '\\' then
      match rest with
      | [] => none
      | e :: rest2 =>
        if e = '"' then parseStringBody ('"' :: acc) rest2
        else if e = '\\' then parseStringBody ('\\' :: acc) rest2
        else if e = '/' then parseStringBody ('/' :: acc) rest2
        else if e = 'b' then parseStringBody (Char.ofNat 8 :: acc) rest2
        else if e = 'f' then parseStringBody (Char.ofNat 12 :: acc) rest2
        else if e = 'n' then parseStringBody ('\n' :: acc) rest2
        else if e = 'r' then parseStringBody ('\r' :: acc) rest2
        else if e = 't' then parseStringBody ('\t' :: acc) rest2
        else if e = 'u' then
          match rest2 with
          | h1 :: h2 :: h3 :: h4 :: rest3 =>
            if isHexDigit h1 && isHexDigit h2 && isHexDigit h3 && isHexDigit h4 then
              parseStringBody
                (Char.ofNat (hexVal h1 * 4096 + hexVal h2 * 256 + hexVal h3 * 16 + hexVal h4)
                  :: acc) rest3
            else none
          | _ => none
        else none
    else if c.toNat < 32 then none
    else parseStringBody (c :: acc) rest

/-- Split off a maximal run of leading decimal digits. -/
def takeDigits : List Char → List Char × List Char
  | [] => ([], [])
  | c :: rest =>
    if c.isDigit then
      let p := takeDigits rest
      (c :: p.fst, p.snd)
    else ([], c :: rest)

/-- Parse an optional JSON exponent part after the integer/fraction part. -/
def parseExpPart (acc : String) (cs : List Char) : Option (String × List Char) :=
  match cs with
  | [] => some (acc, [])
  | e :: rest =>
    if e = 'e' || e = 'E' then
      let p : String × List Char :=
        match rest with
        | '+' :: r => ("+", r)
        | '-' :: r => ("-", r)
        | _ => ("", rest)
      match p.snd with
      | [] => none
      | d :: r2 =>
        if d.isDigit then
          let q := takeDigits r2
          some (acc ++ String.singleton e ++ p.fst ++ String.mk (d :: q.fst), q.snd)
        else none
    else some (acc, cs)

/-- Parse an optional JSON fraction part, then the exponent part. -/
def parseFracPart (acc : String) (cs : List Char) : Option (String × List Char) :=
  match cs with
  | '.' :: rest =>
    match rest with
    | [] => none
    | d :: r2 =>
      if d.isDigit then
        let q := takeDigits r2
        parseExpPart (acc ++ "." ++ String.mk (d :: q.fst)) q.snd
      else none
  | _ => parseExpPart acc cs

/-- Parse a JSON number literal. -/
def parseNumber (cs : List Char) : Option (String × List Char) :=
  let p : String × List Char :=
    match cs with
    | '-' :: r => ("-", r)
    | _ => ("", cs)
  match p.snd with
  | [] => none
  | c :: rest =>
    if c = '0' then parseFracPart (p.fst ++ "0") rest
    else if c.isDigit then
      let q := takeDigits rest
      parseFracPart (p.fst ++ String.mk (c :: q.fst)) q.snd
    else none

mutual

/-- Parse one JSON value (fuel-bounded recursive descent). -/
def parseJsonVal : Nat → List Char → Option (Json × List Char)
  | 0, _ => none
  | Nat.succ fuel, cs =>
    match skipWs cs with
    | [] => none
    | c :: rest =>
      if c = '"' then
        match parseStringBody [] rest with
        | some (s, r) => some (Json.str s, r)
        | none => none
      else if c = '[' then
        match skipWs rest with
        | ']' :: r => some (Json.arr [], r)
        | cs2 => parseArrayItems fuel cs2 []
      else if c = lbrace then
        match skipWs rest with
        | [] => none
        | c2 :: r => if c2 = rbrace then some (Json.obj [], r) else parseObjItems fuel (c2 :: r) []
      else if c = 't' then
        match rest with
        | 'r' :: 'u' :: 'e' :: r => some (Json.bool true, r)
        | _ => none
      else if c = 'f' then
        match rest with
        | 'a' :: 'l' :: 's' :: 'e' :: r => some (Json.bool false, r)
        | _ => none
      else if c = 'n' then
        match rest with
        | 'u' :: 'l' :: 'l' :: r => some (Json.null, r)
        | _ => none
      else
        match parseNumber (c :: rest) with
        | some (s, r) => some (Json.num s, r)
        | none => none

/-- Parse the elements of a non-empty JSON array, accumulating in reverse. -/
def parseArrayItems : Nat → List Char → List Json → Option (Json × List Char)
  | 0, _, _ => none
  | Nat.succ fuel, cs, acc =>
    match parseJsonVal fuel cs with
    | none => none
    | some (j, r) =>
      match skipWs r with
      | ',' :: r2 => parseArrayItems fuel r2 (j :: acc)
      | ']' :: r2 => some (Json.arr (j :: acc).reverse, r2)
      | _ => none

/-- Parse the members of a non-empty JSON object, accumulating in reverse. -/
def parseObjItems : Nat → List Char → List (String × Json) → Option (Json × List Char)
  | 0, _, _ => none
  | Nat.succ fuel, cs, acc =>
    match skipWs cs with
    | [] => none
    | c :: rest =>
      if c = '"' then
        match parseStringBody [] rest with
        | none => none
        | some (k, r) =>
          match skipWs r with
          | ':' :: r2 =>
            match parseJsonVal fuel r2 with
            | none => none
            | some (v, r3) =>
              match skipWs r3 with
              | [] => none
              | ',' :: r4 => parseObjItems fuel r4 ((k, v) :: acc)
              | c2 :: r4 =>
                if c2 = rbrace then some (Json.obj ((k, v) :: acc).reverse, r4) else none
          | _ => none
      else none

end

/-- Parse a complete JSON text: one value, possibly surrounded by whitespace,
consuming the whole input. -/
def parseJson (s : String) : Option Json :=
  match parseJsonVal (2 * s.length + 2) s.toList with
  | some (j, rest) => if (skipWs rest).isEmpty then some j else none
  | none => none

/-- True when the string is a well-formed JSON text. -/
def isJsonValue (s : String) : Bool := (parseJson s).isSome

/-- True when the string is a well-formed JSON text whose top-level value is
an array. -/
def isJsonArray (s : String) : Bool :=
  match parseJson s with
  | some (Json.arr _) => true
  | _ => false

/-- One hexadecimal digit as a lowercase string. -/
def hexDigitStr (n : Nat) : String :=
  String.singleton (if n < 10 then Char.ofNat ('0'.toNat + n) else Char.ofNat ('a'.toNat + n - 10))

/-- Model of Go encoding/json string escaping (quote, backslash and control
characters escaped; the angle brackets and ampersand HTML-escaped as the
default encoder does). -/
def jsonEscapeChar (c : Char) : String :=
  if c = '"' then "\\\""
  else if c = '\\' then "\\\\"
  else if c = '\n' then "\\n"
  else if c = '\r' then "\\r"
  else if c = '\t' then "\\t"
  else if c.toNat < 32 then "\\u00" ++ hexDigitStr (c.toNat / 16) ++ hexDigitStr (c.toNat % 16)
  else if c = '<' then "\\u003c"
  else if c = '>' then "\\u003e"
  else if c = '&' then "\\u0026"
  else String.singleton c

/-- Escape a whole string as Go encoding/json does. -/
def jsonEscape (s : String) : String := s.toList.foldl (fun acc c => acc ++ jsonEscapeChar c) ""

/-- Model of Go json.Marshal applied to a FileDetails value: an object with
the three exported fields in declaration order (this marshalling never fails
in Go, so it is total here). -/
def marshalFileDetails (f : FileDetails) : String :=
  "\x7b\"FileName\":\"" ++ jsonEscape f.FileName ++ "\",\"FileHash\":\"" ++ jsonEscape f.FileHash
    ++ "\",\"FileUrl\":\"" ++ jsonEscape f.FileUrl ++ "\"\x7d"

/-- Look up an object member by exact field name (first occurrence). -/
def jsonField (name : String) : List (String × Json) → Option Json
  | [] => none
  | (k, v) :: rest => if k = name then some v else jsonField name rest

/-- Read one string-typed field for unmarshalling: an absent field keeps the
zero value, a present field must be a JSON string. -/
def jsonStrField (name : String) (members : List (String × Json)) : Except String String :=
  match jsonField name members with
  | none => Except.ok ""
  | some (Json.str v) => Except.ok v
  | some _ => Except.error "json: cannot unmarshal value into Go struct field"

/-- Model of Go json.Unmarshal into a FileDetails: the text must parse as a
JSON object, and each of the three fields, matched by exact name, must be a
string when present (Go's case-insensitive field fallback and duplicate-key
handling are not needed for any input considered here). -/
def unmarshalFileDetails (s : String) : Except String FileDetails :=
  match parseJson s with
  | none => Except.error "invalid character in JSON input"
  | some (Json.obj members) =>
    match jsonStrField "FileName" members with
    | Except.error e => Except.error e
    | Except.ok n =>
      match jsonStrField "FileHash" members with
      | Except.error e => Except.error e
      | Except.ok h =>
        match jsonStrField "FileUrl" members with
        | Except.error e => Except.error e
        | Except.ok u => Except.ok ⟨n, h, u⟩
  | some _ => Except.error "json: cannot unmarshal value into Go value of type FileDetails"

/-- initFile with the line-67 slip repaired: fileUrl is taken from args[2], as
the code's own argument-layout comment (lines 48-49) prescribes; every other
step is translated verbatim from lines 47-104.  In particular the result of
the index-entry PutState on line 98 is discarded: a failed index write leaves
the state without the index entry and still returns success. -/
def initFileIntended (stub : Stub) (args : List String) : Outcome × Stub :=
  match args with
  | [a0, a1, a2] =>
    if a0.isEmpty then (Outcome.error "1st argument must be a non-empty string", stub)
    else if a1.isEmpty then (Outcome.error "2nd argument must be a non-empty string", stub)
    else if a2.isEmpty then (Outcome.error "3rd argument must be a non-empty string", stub)
    else
      let fileName := a0
      let fileHash := goToLower a1
      let fileUrl := goToLower a2
      match stub.getState fileName with
      | Except.error e => (Outcome.error ("Failed to get file: " ++ e), stub)
      | Except.ok (some _) => (Outcome.error ("This file is  already exists: " ++ fileName), stub)
      | Except.ok none =>
        let filestore : FileDetails := ⟨fileName, fileHash, fileUrl⟩
        let fileJSONasBytes := marshalFileDetails filestore
        match stub.putState fileName fileJSONasBytes with
        | Except.error e => (Outcome.error e, stub)
        | Except.ok stub1 =>
          match createCompositeKey "hash~name" [filestore.FileHash, filestore.FileName] with
          | Except.error e => (Outcome.error e, stub1)
          | Except.ok fileHashNameIndexKey =>
            let stub2 :=
              match stub1.putState fileHashNameIndexKey (String.singleton nullChar) with
              | Except.ok s => s
              | Except.error _ => stub1
            (Outcome.success none, stub2)
  | _ => (Outcome.error "Incorrect number of arguments. Expecting 4", stub)

/-- deleteFile from fileData.go, lines 109-151, translated faithfully.  Note
that it recomputes the index key under index name "Hash~name" (line 139),
while initFile creates index entries under "hash~name" (line 90). -/
def deleteFile (stub : Stub) (args : List String) : Outcome × Stub :=
  match args with
  | [filename] =>
    match stub.getState filename with
    | Except.error _ =>
      (Outcome.error ("\x7b\"Error\":\"Failed to get state for " ++ filename ++ "\"\x7d"), stub)
    | Except.ok none =>
      (Outcome.error ("\x7b\"Error\":\"Marble does not exist: " ++ filename ++ "\"\x7d"), stub)
    | Except.ok (some valAsbytes) =>
      match unmarshalFileDetails valAsbytes with
      | Except.error _ =>
        (Outcome.error ("\x7b\"Error\":\"Failed to decode JSON of: " ++ filename ++ "\"\x7d"), stub)
      | Except.ok fileJSON =>
        match stub.delState filename with
        | Except.error e => (Outcome.error ("Failed to delete state:" ++ e), stub)
        | Except.ok stub1 =>
          match createCompositeKey "Hash~name" [fileJSON.FileHash, fileJSON.FileName] with
          | Except.error e => (Outcome.error e, stub1)
          | Except.ok colorNameIndexKey =>
            match stub1.delState colorNameIndexKey with
            | Except.error e => (Outcome.error ("Failed to delete state:" ++ e), stub1)
            | Except.ok stub2 => (Outcome.success none, stub2)
  | _ => (Outcome.error "Incorrect number of arguments. Expecting 1", stub)

/-- constructQueryResponseFromIterator's loop (lines 218-238): consume the
cursor, appending each element to the buffer, with a comma before every
element but the first; a failed cursor advance aborts with its error. -/
def constructGo : List (Except String (String × String)) → Bool → String → Except String String
  | [], _, buffer => Except.ok (buffer ++ "]")
  | Except.error e :: _, _, _ => Except.error e
  | Except.ok (k, v) :: rest, bArrayMemberAlreadyWritten, buffer =>
    constructGo rest true
      ((if bArrayMemberAlreadyWritten then buffer ++ "," else buffer)
        ++ "\x7b\"Key\":" ++ "\"" ++ k ++ "\"" ++ ", \"Record\":" ++ v ++ "\x7d")

/-- constructQueryResponseFromIterator from fileData.go, lines 213-242: the
cursor is modelled as the list of results its successive Next calls yield
(a pair, or an error for a failed advance). -/
def constructQueryResponseFromIterator
    (resultsIterator : List (Except String (String × String))) : Except String String :=
  constructGo resultsIterator false "["

/-- getQueryResultForQueryString from fileData.go, lines 189-207: run the
query through the store's engine and materialize the cursor. -/
def getQueryResultForQueryString (stub : Stub) (queryString : String) : Except String String :=
  match stub.queryEngine queryString with
  | Except.error e => Except.error e
  | Except.ok resultsIterator => constructQueryResponseFromIterator resultsIterator

/-- queryfile from fileData.go, lines 160-175, translated faithfully: the only
argument validation is len(args) < 1, and args[0] (whatever its content) is
handed to the query engine.  The operation never writes to the state. -/
def queryfile (stub : Stub) (args : List String) : Outcome :=
  match args with
  | [] => Outcome.error "Incorrect number of arguments. Expecting 1"
  | queryString :: _ =>
    match getQueryResultForQueryString stub queryString with
    | Except.error e => Outcome.error e
    | Except.ok queryResults => Outcome.success (some queryResults)

/-- A ledger stub with empty state, no injected store failures, and an
unavailable query engine. -/
def emptyStub : Stub :=
  { state := [], getFails := fun _ => false, putFails := fun _ => false,
    delFails := fun _ => false, queryEngine := fun _ => Except.error "query engine unavailable" }

/-- The composite key initFile builds for hash "h" and name "n": namespace
byte, index name "hash~name", and the two null-terminated components. -/
def indexKeyLowerNH : String := "\x00hash~name\x00h\x00n\x00"

/-- A ledger stub whose only injected failure is on writing the index entry
for hash "h", name "n". -/
def indexWriteFailStub : Stub :=
  { state := [], getFails := fun _ => false,
    putFails := fun k => k == indexKeyLowerNH,
    delFails := fun _ => false, queryEngine := fun _ => Except.error "query engine unavailable" }

/-- A ledger stub with no failures whose query engine always yields an
exhausted cursor. -/
def emptyCursorStub : Stub :=
  { state := [], getFails := fun _ => false, putFails := fun _ => false,
    delFails := fun _ => false, queryEngine := fun _ => Except.ok [] }

/-- A ledger stub holding one stored record under key "f" whose deletions
fail on every key except the primary key "f". -/
def indexDeleteFailStub : Stub :=
  { state := [("f", marshalFileDetails ⟨"f", "h", "u"⟩)],
    getFails := fun _ => false, putFails := fun _ => false,
    delFails := fun k => k != "f",
    queryEngine := fun _ => Except.error "query engine unavailable" }

/- ===== Theorems ===== -/

/-- C1: every invocation of initFile with exactly three non-empty arguments
evaluates args[3] on the three-element argument slice (line 67) and aborts
with an index-out-of-range panic before touching the store, so no such call
succeeds and no record is ever stored - contradicting the claim that a
successful call stores the lowercased hash and url. -/
theorem initFile_line67_out_of_range :
    initFile emptyStub ["n", "ABC", "URL"]
      = (Outcome.panic "runtime error: index out of range [3] with length 3", emptyStub) := rfl

/-- C2: no invocation of initFile ever succeeds or changes the state (so the
claim's "after a successful initFile" situation is unreachable); moreover,
with only the line-67 slip repaired, a successful create followed by a
successful delete leaves the primary entry gone but the index entry dangling,
because initFile indexes under "hash~name" while deleteFile deletes under
"Hash~name" - so the primary/index if-and-only-if invariant fails. -/
theorem initFile_never_succeeds_and_index_diverges :
    (∀ stub args, (initFile stub args).fst.isSuccess = false ∧ (initFile stub args).snd = stub)
    ∧ ((initFileIntended emptyStub ["n", "h", "u"]).fst = Outcome.success none
      ∧ (deleteFile (initFileIntended emptyStub ["n", "h", "u"]).snd ["n"]).fst
          = Outcome.success none
      ∧ stateLookup "n" (deleteFile (initFileIntended emptyStub ["n", "h", "u"]).snd ["n"]).snd.state
          = none
      ∧ stateLookup indexKeyLowerNH
          (deleteFile (initFileIntended emptyStub ["n", "h", "u"]).snd ["n"]).snd.state
          = some (String.singleton nullChar)) := by
  constructor
  · intro stub args
    match args with
    | [] => exact ⟨rfl, rfl⟩
    | [a] => exact ⟨rfl, rfl⟩
    | [a, b] => exact ⟨rfl, rfl⟩
    | a :: b :: c :: d :: rest => exact ⟨rfl, rfl⟩
    | [a0, a1, a2] =>
      by_cases h0 : a0.isEmpty <;> by_cases h1 : a1.isEmpty <;> by_cases h2 : a2.isEmpty <;>
        simp [initFile, h0, h1, h2, Outcome.isSuccess]
  · exact ⟨rfl, rfl, rfl, rfl⟩

/-- C3: the claim's situation (primary write succeeded, index write failed) is
unreachable, because initFile panics at line 67 before any write; and with
only that slip repaired, a failed index write is silently discarded (the
PutState result on line 98 is dropped): the call still reports success while
the index entry is missing from the stored state. -/
theorem initFileIntended_swallows_index_write_error :
    initFile indexWriteFailStub ["n", "h", "u"]
      = (Outcome.panic "runtime error: index out of range [3] with length 3", indexWriteFailStub)
    ∧ initFileIntended indexWriteFailStub ["n", "h", "u"]
      = (Outcome.success none,
          { indexWriteFailStub with state := [("n", marshalFileDetails ⟨"n", "h", "u"⟩)] })
    ∧ stateLookup indexKeyLowerNH
        (initFileIntended indexWriteFailStub ["n", "h", "u"]).snd.state = none :=
  ⟨rfl, rfl, rfl⟩

/-- C4 counterexample: a queryfile invocation with two arguments, and one with
an empty query expression, both reach the query engine and succeed - they do
not fail with an invalid-argument error as the claim requires. -/
theorem queryfile_lax_validation_counterexample :
    queryfile emptyCursorStub ["a", "b"] = Outcome.success (some "[]")
    ∧ queryfile emptyCursorStub [""] = Outcome.success (some "[]") := ⟨rfl, rfl⟩

/-- C4 amended: queryfile fails with the invalid-argument error, independently
of the query engine, exactly when the argument list is empty; otherwise the
first argument - even when empty, and with any extra arguments ignored - is
handed to the query engine and the materialized cursor is returned. -/
theorem queryfile_validation :
    (∀ stub : Stub, queryfile stub [] = Outcome.error "Incorrect number of arguments. Expecting 1")
    ∧ (∀ (stub : Stub) (q : String) (rest : List String),
        queryfile stub (q :: rest) = queryfile stub [q])
    ∧ (∀ (stub : Stub) (q : String) (rest : List String)
        (cursor : List (Except String (String × String))),
        stub.queryEngine q = Except.ok cursor →
        queryfile stub (q :: rest)
          = match constructQueryResponseFromIterator cursor with
            | Except.ok s => Outcome.success (some s)
            | Except.error e => Outcome.error e) := by
  refine ⟨fun stub => rfl, fun stub q rest => rfl, fun stub q rest cursor h => ?_⟩
  simp only [queryfile, getQueryResultForQueryString, h]
  cases constructQueryResponseFromIterator cursor <;> rfl

/-- C4 witness: the amended theorem applied to a concrete stub and the
argument list ["", "x"]. -/
theorem queryfile_validation_witness :
    queryfile emptyCursorStub ["", "x"] = Outcome.success (some "[]") := by
  have h := queryfile_validation.2.2 emptyCursorStub "" ["x"] [] rfl
  simpa using h

/-- C5 counterexample: on the two-pair cursor ("k1","1"), ("k2","2") the
materialization emits a space between the comma and the "Record" field inside
each element, so the produced bytes differ from the exact bytes the claim
prescribes. -/
theorem query_result_shape_counterexample :
    constructQueryResponseFromIterator [Except.ok ("k1", "1"), Except.ok ("k2", "2")]
      = Except.ok "[\x7b\"Key\":\"k1\", \"Record\":1\x7d,\x7b\"Key\":\"k2\", \"Record\":2\x7d]"
    ∧ "[\x7b\"Key\":\"k1\", \"Record\":1\x7d,\x7b\"Key\":\"k2\", \"Record\":2\x7d]"
      ≠ "[\x7b\"Key\":\"k1\",\"Record\":1\x7d,\x7b\"Key\":\"k2\",\"Record\":2\x7d]" :=
  ⟨rfl, by decide⟩

/-- C5 amended: for every cursor yielding (k1,v1), (k2,v2) with no failed
advance, the materialization returns exactly the bytes
[{"Key":"k1", "Record":v1},{"Key":"k2", "Record":v2}] - elements in cursor
order, separated by a single comma, no trailing comma, each value embedded
verbatim, and a single space after the comma inside each element. -/
theorem query_result_shape_with_space (k1 v1 k2 v2 : String) :
    constructQueryResponseFromIterator [Except.ok (k1, v1), Except.ok (k2, v2)]
      = Except.ok ("[\x7b\"Key\":\"" ++ k1 ++ "\", \"Record\":" ++ v1
          ++ "\x7d,\x7b\"Key\":\"" ++ k2 ++ "\", \"Record\":" ++ v2 ++ "\x7d]") := by
  have h : constructQueryResponseFromIterator [Except.ok (k1, v1), Except.ok (k2, v2)]
      = Except.ok ("[" ++ "\x7b\"Key\":" ++ "\"" ++ k1 ++ "\"" ++ ", \"Record\":" ++ v1 ++ "\x7d"
          ++ "," ++ "\x7b\"Key\":" ++ "\"" ++ k2 ++ "\"" ++ ", \"Record\":" ++ v2 ++ "\x7d"
          ++ "]") := rfl
  rw [h]
  congr 1
  apply String.ext
  simp [String.data_append, List.append_assoc]

/-- C6: both the first and the second initFile call on the same name panic at
line 67; the first call never succeeds, no record is ever stored, and the
uniqueness check at lines 69-76 is unreachable, so no duplicate-record error
can ever be produced. -/
theorem initFile_duplicate_check_unreachable :
    initFile emptyStub ["doc", "h1", "u1"]
      = (Outcome.panic "runtime error: index out of range [3] with length 3", emptyStub)
    ∧ initFile (initFile emptyStub ["doc", "h1", "u1"]).snd ["doc", "h2", "u2"]
      = (Outcome.panic "runtime error: index out of range [3] with length 3", emptyStub) :=
  ⟨rfl, rfl⟩

/-- C7: a cursor that yields no pairs materializes to exactly the two
characters []. -/
theorem query_empty_cursor_empty_array :
    constructQueryResponseFromIterator [] = Except.ok "[]" := rfl

/-- C8: deleting a name for which no primary entry exists (with a succeeding
store read) fails with the does-not-exist error and returns the ledger state
completely unchanged - no write or deletion is performed. -/
theorem deleteFile_missing_record (stub : Stub) (name : String)
    (hread : stub.getFails name = false)
    (habsent : stateLookup name stub.state = none) :
    deleteFile stub [name]
      = (Outcome.error ("\x7b\"Error\":\"Marble does not exist: " ++ name ++ "\"\x7d"), stub) := by
  simp [deleteFile, Stub.getState, hread, habsent]

/-- C8 witness: the theorem applied to the empty ledger and the name
"ghost". -/
theorem deleteFile_missing_record_witness :
    deleteFile emptyStub ["ghost"]
      = (Outcome.error "\x7b\"Error\":\"Marble does not exist: ghost\"\x7d", emptyStub) :=
  deleteFile_missing_record emptyStub "ghost" rfl rfl

/-- C9 counterexample: the key a\b contains a backslash, yet the materialized
bytes are a well-formed JSON array (the backslash happens to form the valid
JSON escape \b), refuting the claim that any key containing a backslash or
double-quote yields ill-formed output. -/
theorem query_key_backslash_wellformed_counterexample :
    ("a\\b".toList.contains '\\') = true
    ∧ constructQueryResponseFromIterator [Except.ok ("a\\b", "1")]
        = Except.ok "[\x7b\"Key\":\"a\\b\", \"Record\":1\x7d]"
    ∧ isJsonArray "[\x7b\"Key\":\"a\\b\", \"Record\":1\x7d]" = true :=
  ⟨rfl, rfl, rfl⟩

/-- C9 amended: every yielded key is embedded verbatim between double quotes
with no JSON escaping, and for some keys containing a double-quote (such as
a"b) the resulting bytes are not a well-formed JSON array - though not for
every key containing a double-quote or backslash. -/
theorem query_key_embedded_verbatim :
    (∀ k v, constructQueryResponseFromIterator [Except.ok (k, v)]
        = Except.ok ("[\x7b\"Key\":\"" ++ k ++ "\", \"Record\":" ++ v ++ "\x7d]"))
    ∧ constructQueryResponseFromIterator [Except.ok ("a\"b", "1")]
        = Except.ok "[\x7b\"Key\":\"a\"b\", \"Record\":1\x7d]"
    ∧ isJsonArray "[\x7b\"Key\":\"a\"b\", \"Record\":1\x7d]" = false := by
  refine ⟨fun k v => ?_, rfl, rfl⟩
  have h : constructQueryResponseFromIterator [Except.ok (k, v)]
      = Except.ok ("[" ++ "\x7b\"Key\":" ++ "\"" ++ k ++ "\"" ++ ", \"Record\":" ++ v ++ "\x7d"
          ++ "]") := rfl
  rw [h]
  congr 1
  apply String.ext
  simp [String.data_append, List.append_assoc]

/-- C10: whenever deleteFile has read and parsed the stored record and the
primary deletion succeeds, a subsequent failure - either building the
composite index key or deleting the index entry - produces an error outcome
while the primary entry stays deleted: the state is exactly the input state
with the primary key removed, never rolled back. -/
theorem deleteFile_primary_delete_not_rolled_back (stub : Stub) (name bytes : String)
    (fd : FileDetails)
    (hread : stub.getFails name = false)
    (hstored : stateLookup name stub.state = some bytes)
    (hparse : unmarshalFileDetails bytes = Except.ok fd)
    (hdelOk : stub.delFails name = false)
    (hidx : match createCompositeKey "Hash~name" [fd.FileHash, fd.FileName] with
            | Except.error _ => True
            | Except.ok k => stub.delFails k = true) :
    (deleteFile stub [name]).fst.isError = true
    ∧ (deleteFile stub [name]).snd = { stub with state := stateRemove name stub.state } := by
  cases hck : createCompositeKey "Hash~name" [fd.FileHash, fd.FileName] with
  | error e =>
    simp [deleteFile, Stub.getState, Stub.delState, hread, hstored, hparse, hdelOk, hck,
      Outcome.isError]
  | ok k =>
    rw [hck] at hidx
    simp [deleteFile, Stub.getState, Stub.delState, hread, hstored, hparse, hdelOk, hck, hidx,
      Outcome.isError]

/-- C10 witness: the theorem applied to a ledger holding the record "f" whose
deletions fail on every key but "f": the index-entry deletion fails, the
outcome is an error, and the state retains everything except the primary
entry. -/
theorem deleteFile_primary_delete_not_rolled_back_witness :
    (deleteFile indexDeleteFailStub ["f"]).fst.isError = true
    ∧ (deleteFile indexDeleteFailStub ["f"]).snd
        = { indexDeleteFailStub with state := stateRemove "f" indexDeleteFailStub.state } :=
  deleteFile_primary_delete_not_rolled_back indexDeleteFailStub "f"
    (marshalFileDetails ⟨"f", "h", "u"⟩) ⟨"f", "h", "u"⟩ rfl rfl rfl rfl (by rfl)

end ChaincodeSpec
